import Mathlib

/-!
Shallow embedding of `colb` (a colcon wrapper, src/main.rs) in Lean 4.

The builder's `ArgStack` is append-only, so every staged-builder method is
modelled as a function `List String → ... → List String` that appends the
tokens the Rust method pushes, in the same order.  Child processes are
modelled by an oracle `Phase → Option Int` giving each phase's `ExitStatus`
(`none` = terminated without an exit code, e.g. by signal).  The filesystem
is modelled only where a claim needs it (existence predicates on
component-lists for paths).
-/

namespace Colb

/-- `BuildType` enum from src/main.rs. -/
inductive BuildType
  | Debug
  | Release
  | RelWithDebInfo
deriving DecidableEq, Repr

/-- The string chosen in `BuildType::apply`'s `match`. -/
def BuildType.str : BuildType → String
  | .Debug => "Debug"
  | .Release => "Release"
  | .RelWithDebInfo => "RelWithDebInfo"

/-- `BuildType::apply`: pushes `-DCMAKE_BUILD_TYPE={t}`; returned here as the
single token it appends. -/
def BuildType.apply (t : BuildType) : String :=
  "-DCMAKE_BUILD_TYPE=" ++ t.str

/-- `EventHandlers` struct: four independent booleans. -/
structure EventHandlers where
  desktop_notification : Bool
  console_cohesion : Bool
  summary : Bool
  console_start_end : Bool
deriving DecidableEq, Repr

/-- `EventHandlers::silent()`. -/
def EventHandlers.silent : EventHandlers :=
  ⟨false, false, false, false⟩

/-- `handler_str`: `{name}+` when enabled, `{name}-` when disabled. -/
def handler_str (name : String) (enabled : Bool) : String :=
  name ++ (if enabled then "+" else "-")

/-- `EventHandlers::apply`: pushes `--event-handlers` and then the four
handler tokens, in the source's order. -/
def EventHandlers.apply (e : EventHandlers) : List String :=
  ["--event-handlers",
   handler_str "summary" e.summary,
   handler_str "console_start_end" e.console_start_end,
   handler_str "console_cohesion" e.console_cohesion,
   handler_str "desktop_notification" e.desktop_notification]

/-- `cmake_arg`: `-D{name}={value}`. -/
def cmake_arg (name value : String) : String :=
  "-D" ++ name ++ "=" ++ value

/-- `BuildConfiguration` struct (one build profile). `parallel_jobs` is `u32`
in Rust; modelled as `Nat`, formatted with `Nat.repr` like `format!("{}", n)`. -/
structure BuildConfiguration where
  mixins : List String
  cmake_args : List String
  build_type : BuildType
  parallel_jobs : Option Nat
  event_handlers : EventHandlers
  build_tests : Bool
deriving DecidableEq, Repr

/-- `Config` struct: the two persisted profiles. -/
structure Config where
  upstream : BuildConfiguration
  package : BuildConfiguration
deriving DecidableEq, Repr

/-- `TestConfiguration` struct. -/
structure TestConfiguration where
  package : String
  test : Option String
  event_handlers : EventHandlers

/-- `TestResultConfig` struct. -/
structure TestResultConfig where
  package : String
  verbose : Bool
  all : Bool

/-- `BuildOutput` struct (both fields default to `false` via `#[derive(Default)]`). -/
structure BuildOutput where
  symlink : Bool := false
  merge : Bool := false
deriving DecidableEq, Repr

/-- `What` enum: the final discriminator handed to `ConfiguredBuild::run`. -/
inductive What
  | DependenciesFor (pkgs : List String)
  | ThesePackages (pkgs : List String)

/-- The package names carried by a `What`. -/
def What.pkgs : What → List String
  | .DependenciesFor ps => ps
  | .ThesePackages ps => ps

/-- `ColconInvocation::new`: seeds the stack with the log-base flag. -/
def ColconInvocation.new (log : Bool) : List String :=
  ["--log-base", if log then "log" else "/dev/null"]

/-- `ColconInvocation::build`: appends the build verb and its fixed sub-flags. -/
def ColconInvocation.build (args : List String) (base_setup : BuildOutput) : List String :=
  args ++ ["build", "--build-base", "build", "--install-base", "install"]
    ++ (if base_setup.symlink then ["--symlink-install"] else [])
    ++ (if base_setup.merge then ["--merge-install"] else [])

/-- The `if let Some(n) = config.parallel_jobs` block of `BuildVerb::configure`:
`format!("{}", n)` is `Nat.repr n`. -/
def parallelArgs : Option Nat → List String
  | some n => ["--executor", "parallel", "--parallel-workers", Nat.repr n]
  | none => []

/-- The `if !config.mixins.is_empty()` block of `BuildVerb::configure`. -/
def mixinArgs (mixins : List String) : List String :=
  if mixins.isEmpty then [] else "--mixin" :: mixins

/-- `BuildVerb::configure`: appends, in source order, the parallel-executor
flags, the event-handler tokens, the mixin list (when non-empty), the
`--cmake-args` section with the BUILD_TESTING toggle, the extra cmake args,
and finally the build-type token. -/
def BuildVerb.configure (args : List String) (config : BuildConfiguration) : List String :=
  args
    ++ parallelArgs config.parallel_jobs
    ++ config.event_handlers.apply
    ++ mixinArgs config.mixins
    ++ ["--cmake-args", cmake_arg "BUILD_TESTING" (if config.build_tests then "ON" else "OFF")]
    ++ config.cmake_args
    ++ [config.build_type.apply]

/-- `ColconInvocation::test`: note the source pushes `--event-handlers`
itself and then calls `EventHandlers::apply`, which pushes it again. -/
def ColconInvocation.test (args : List String) (config : TestConfiguration) : List String :=
  args ++ ["test", "--event-handlers"]
    ++ config.event_handlers.apply
    ++ ["--ctest-args", "--output-on-failure"]
    ++ (match config.test with
        | some t => ["-R", "^" ++ t ++ "$"]
        | none => [])
    ++ ["--packages-select", config.package]

/-- `ColconInvocation::test_result`. -/
def ColconInvocation.test_result (args : List String) (config : TestResultConfig) : List String :=
  args ++ ["test-result", "--test-result-base", "build/" ++ config.package]
    ++ (if config.verbose then ["--verbose"] else [])
    ++ (if config.all then ["--all"] else [])

/-- The extra arguments `ConfiguredBuild::run` adds to the command for the
`What` discriminator. -/
def What.args : What → List String
  | .DependenciesFor ps => "--packages-up-to" :: ps ++ "--packages-skip" :: ps
  | .ThesePackages ps => "--packages-select" :: ps

/-- Complete argument list of the colcon command launched by
`ConfiguredBuild::run`, for a full build pipeline
`ColconInvocation::new(..).build(..).configure(..).run(..)`. -/
def buildPipelineArgs (log : Bool) (base_setup : BuildOutput)
    (config : BuildConfiguration) (what : What) : List String :=
  BuildVerb.configure (ColconInvocation.build (ColconInvocation.new log) base_setup) config
    ++ what.args

/-- Arguments of the `ninja` command in `ninja_build_target`. -/
def ninja_build_target_args (workspace package target : String) : List String :=
  ["-C", workspace ++ "/build/" ++ package, target]

/-- Arguments of the `ctest` command in `run_single_ctest`. -/
def run_single_ctest_args (workspace package target : String) : List String :=
  ["--test-dir", workspace ++ "/build/" ++ package,
   "--output-on-failure", "-R", "^" ++ target ++ "$"]

/-! ### Orchestration: exit-code handling and phase sequencing -/

/-- `exit_on_error`: `Some(0)` lets the workflow continue (`none` here);
`Some(code)` exits with `code`; `None` (no exit code, e.g. killed by a
signal) exits with `-1`. The result is `some c` when the process exits with
code `c`, `none` when control flow continues. -/
def exit_on_error (status : Option Int) : Option Int :=
  match status with
  | some code => if code = 0 then none else some code
  | none => some (-1)

/-- The exit code used by `main`'s internal fatal-error closures
(`exit_on_not_found`, `config_file_err`, `config_parse_err`): `exit(-1)`. -/
def internalFatalExitCode : Int := -1

/-- The distinct child-process phases of the `Test` verb arm of `main`, in
source order. `pkgBuildAfterDeps` is the package build nested inside the
rebuild-dependencies block; `pkgBuild` is the one in the plain
not-skip-rebuild block. -/
inductive Phase
  | depsBuild
  | pkgBuildAfterDeps
  | singleTestBuild
  | pkgBuild
  | directTestRun
  | testRun
  | resultReport
deriving DecidableEq, Repr

/-- Flags of the `Test` verb (clap subcommand). -/
structure TestFlags where
  test : Option String
  direct : Bool
  skip_rebuild : Bool
  rebuild_dependencies : Bool
deriving DecidableEq, Repr

/-- The sequence of phases the `Test` arm of `main` attempts when every
child process succeeds, read off the source's conditionals: the
rebuild-dependencies block (with a nested package build when a single test
is named), the not-skip-rebuild block (ninja single-test build vs. whole
package build), then either the direct ctest run (which `return`s) or the
colcon test run followed by the test-result report. -/
def testPlan (f : TestFlags) : List Phase :=
  (if f.rebuild_dependencies && !f.skip_rebuild then
      Phase.depsBuild :: (if f.test.isSome then [Phase.pkgBuildAfterDeps] else [])
    else [])
  ++ (if !f.skip_rebuild then
        (if f.test.isSome then [Phase.singleTestBuild] else [Phase.pkgBuild])
      else [])
  ++ (if f.test.isSome && f.direct then [Phase.directTestRun]
      else [Phase.testRun, Phase.resultReport])

/-- Result of running the orchestration: the phases whose child process was
actually launched, in order, and the tool's exit code (`none` means `main`
returned normally, i.e. process exit 0). -/
structure ExecResult where
  trace : List Phase
  exitCode : Option Int
deriving DecidableEq, Repr

/-- Run the planned phases in order, calling `exit_on_error` on each child's
status: the run stops at the first phase whose status makes
`exit_on_error` exit. -/
def execPhases (oracle : Phase → Option Int) : List Phase → ExecResult
  | [] => ⟨[], none⟩
  | p :: rest =>
    match exit_on_error (oracle p) with
    | some c => ⟨[p], some c⟩
    | none =>
      let r := execPhases oracle rest
      ⟨p :: r.trace, r.exitCode⟩

/-- The `Test` verb arm of `main`, as phase trace plus exit code. -/
def testVerbExec (f : TestFlags) (oracle : Phase → Option Int) : ExecResult :=
  execPhases oracle (testPlan f)

/-- The three external tools. -/
inductive Tool
  | colcon
  | ninja
  | ctest
deriving DecidableEq, Repr

/-- A child-process invocation: which binary and which argument list. -/
structure Invocation where
  tool : Tool
  args : List String
deriving DecidableEq, Repr

/-- The command each `Test`-arm phase launches, read off the source:
builds use `ColconInvocation::new(ws, false)` with `BuildOutput::default()`;
the orchestrator test run uses `new(ws, true)` with silent event handlers;
the report uses `new(ws, false)` with `verbose: true, all: true`. -/
def testPhaseInvocation (ws : String) (config : Config) (package : String)
    (t : Option String) : Phase → Invocation
  | .depsBuild =>
      ⟨.colcon, buildPipelineArgs false ⟨false, false⟩ config.upstream (.DependenciesFor [package])⟩
  | .pkgBuildAfterDeps =>
      ⟨.colcon, buildPipelineArgs false ⟨false, false⟩ config.package (.ThesePackages [package])⟩
  | .singleTestBuild =>
      ⟨.ninja, ninja_build_target_args ws package (t.getD "")⟩
  | .pkgBuild =>
      ⟨.colcon, buildPipelineArgs false ⟨false, false⟩ config.package (.ThesePackages [package])⟩
  | .directTestRun =>
      ⟨.ctest, run_single_ctest_args ws package (t.getD "")⟩
  | .testRun =>
      ⟨.colcon, ColconInvocation.test (ColconInvocation.new true)
        ⟨package, t, EventHandlers.silent⟩⟩
  | .resultReport =>
      ⟨.colcon, ColconInvocation.test_result (ColconInvocation.new false)
        ⟨package, true, true⟩⟩

/-! ### Build verb arm -/

/-- Flags of the `Build` verb (clap subcommand). -/
structure BuildFlags where
  packages : Option (List String)
  skip_dependencies : Bool
  skip_tests : Bool
  build_type : Option BuildType

/-- `package_or`: an explicitly given package wins; otherwise the result of
the upward `package.xml` search (supplied here as `resolved`, since the
filesystem walk is environment input). -/
def package_or (package : Option String) (resolved : Option String) : Option String :=
  if package.isSome then package else resolved

/-- The package list the `Build` arm constructs: it starts empty and is
filled only when packages were given explicitly (each going through
`package_or (some p)`, which always returns its argument, so the
`or_else(exit_on_not_found)` can never fire here). When `packages` is
`None` the list stays empty — `package_or(None)` is never called. -/
def buildPkgs (resolved : Option String) (packages : Option (List String)) : List String :=
  match packages with
  | none => []
  | some ps => ps.filterMap (fun p => package_or (some p) resolved)

/-- The `--skip-tests` pre-pass of the `Build` arm: forces `build_tests`
off in both profiles. -/
def applySkipTests (config : Config) (skip : Bool) : Config :=
  if skip then
    { upstream := { config.upstream with build_tests := false },
      package := { config.package with build_tests := false } }
  else config

/-- The `--build-type` override, applied in the source after the dependency
phase has run: `if let Some(t) = build_type { config.package.build_type = t }`. -/
def applyBuildTypeOverride (config : Config) (bt : Option BuildType) : Config :=
  match bt with
  | some t => { config with package := { config.package with build_type := t } }
  | none => config

/-- The colcon invocations the `Build` verb arm launches, in order: the
dependency build (unless skipped) from the pre-override config, then the
package build from the overridden config. -/
def buildVerbInvocations (resolved : Option String) (config : Config)
    (f : BuildFlags) : List Invocation :=
  let config1 := applySkipTests config f.skip_tests
  let pkgs := buildPkgs resolved f.packages
  (if f.skip_dependencies then [] else
    [⟨.colcon, buildPipelineArgs false ⟨false, false⟩ config1.upstream (.DependenciesFor pkgs)⟩])
  ++ [⟨.colcon, buildPipelineArgs false ⟨false, false⟩
        (applyBuildTypeOverride config1 f.build_type).package (.ThesePackages pkgs)⟩]

/-! ### Init verb -/

/-- Outcome of the `Init` arm on the config file. -/
structure InitOutcome where
  contents : Option String
  exitCode : Int
  wroteFile : Bool
deriving DecidableEq, Repr

/-- The `Init` verb arm of `main`: refuses to touch an existing file unless
forced (printing and exiting `-1`); otherwise writes the serialized default
config (`defaultText` — TOML serialization is an external collaborator) and
exits 0, or exits `-1` when the write fails (`writeOk = false`; the
contents after a failed create/write are not modelled precisely). -/
def initVerb (force : Bool) (existing : Option String) (defaultText : String)
    (writeOk : Bool) : InitOutcome :=
  if existing.isSome && !force then
    { contents := existing, exitCode := -1, wroteFile := false }
  else if writeOk then
    { contents := some defaultText, exitCode := 0, wroteFile := true }
  else
    { contents := none, exitCode := -1, wroteFile := true }

/-! ### Clean verb -/

/-- Rust `Path::join` at the path-component level: joining the empty string
adds only a trailing separator, so the component sequence — and the
filesystem object the path denotes for `exists`/`remove_dir_all` — is
unchanged. -/
def pathJoin (p : List String) (c : String) : List String :=
  if c = "" then p else p ++ [c]

/-- Outcome of `clean_package`: which paths were removed (in order) and
whether the nothing-to-clean message was printed. -/
structure CleanOutcome where
  removed : List (List String)
  nothingMsg : Bool
deriving DecidableEq, Repr

/-- `clean_package`: removes `workspace/build/{package}` and
`workspace/install/{package}` when they exist; removal errors are reported,
not propagated, so they do not affect control flow. -/
def clean_package (fsExists : List String → Bool) (workspace : List String)
    (package : String) : CleanOutcome :=
  let build_folder := pathJoin (pathJoin workspace "build") package
  let install_folder := pathJoin (pathJoin workspace "install") package
  let r1 := fsExists build_folder
  let r2 := fsExists install_folder
  { removed := (if r1 then [build_folder] else []) ++ (if r2 then [install_folder] else []),
    nothingMsg := !r1 && !r2 }

/-- Outcome of the `Clean` verb arm. -/
structure CleanArmOutcome where
  errorPrinted : Bool
  aborted : Bool
  result : CleanOutcome
deriving DecidableEq, Repr

/-- The `Clean` verb arm of `main`: an empty package name only triggers an
`eprintln` — the arm does not exit, and `clean_package` still runs. -/
def cleanVerb (fsExists : List String → Bool) (workspace : List String)
    (package : String) : CleanArmOutcome :=
  { errorPrinted := package.isEmpty,
    aborted := false,
    result := clean_package fsExists workspace package }

/-! ### Concrete instances used by witness and counterexample theorems -/

def c6WitnessConfig : Config :=
  { upstream :=
      { mixins := ["ninja"], cmake_args := [], build_type := .Debug,
        parallel_jobs := some 8, event_handlers := ⟨false, false, true, true⟩,
        build_tests := false },
    package :=
      { mixins := ["ninja"], cmake_args := ["-DX=1"], build_type := .Debug,
        parallel_jobs := some 8, event_handlers := ⟨false, true, false, false⟩,
        build_tests := true } }

def c6WitnessFlags : BuildFlags :=
  { packages := some ["pkg"], skip_dependencies := false, skip_tests := false,
    build_type := none }

def c8WitnessFs : List String → Bool :=
  fun p => p == ["ws", "build"] || p == ["ws", "install"]

def c2WitnessFlags : TestFlags :=
  { test := none, direct := false, skip_rebuild := false, rebuild_dependencies := false }

def c2WitnessOracle : Phase → Option Int :=
  fun q => if q = Phase.testRun then some 3 else some 0

def c5CexConfig : BuildConfiguration :=
  { mixins := [], cmake_args := ["--mixin"], build_type := .Debug,
    parallel_jobs := none, event_handlers := EventHandlers.silent, build_tests := true }

def c5WitnessConfig : BuildConfiguration :=
  { mixins := ["compile-commands", "ninja"], cmake_args := ["-DFOO=1"],
    build_type := .Release, parallel_jobs := some 8,
    event_handlers := EventHandlers.silent, build_tests := false }

/-! ### Theorems for the claims -/

/-- C10: when a child process terminates without an exit code,
`exit_on_error` exits with the same fixed sentinel (`-1`) that `main`'s
internal fatal-error closures use, so a signal-terminated child is
indistinguishable from an internal failure at the exit-code level. -/
theorem c10_signal_exit_equals_internal_sentinel :
    exit_on_error none = some internalFatalExitCode ∧ internalFatalExitCode = -1 :=
  ⟨rfl, rfl⟩

/-- C7: `init` without `--force` against an existing config file leaves the
contents unchanged, attempts no write, and exits with the fixed failure
sentinel. -/
theorem c7_init_refuses_overwrite (c defaultText : String) (writeOk : Bool) :
    initVerb false (some c) defaultText writeOk =
      { contents := some c, exitCode := internalFatalExitCode, wroteFile := false } :=
  rfl

/-- C1 (code bug): with no packages given on the `build` verb, the package
list handed to both pipelines is empty — the resolved package name is never
consulted — contradicting the claim (and the CLI help text "default:
current directory") that it is the singleton of the resolved name. -/
theorem c1_build_default_package_list_is_empty (config : Config) (resolved : String) :
    buildVerbInvocations (some resolved) config ⟨none, false, false, none⟩ =
      [⟨.colcon, buildPipelineArgs false ⟨false, false⟩ config.upstream (.DependenciesFor [])⟩,
       ⟨.colcon, buildPipelineArgs false ⟨false, false⟩ config.package (.ThesePackages [])⟩]
    ∧ buildPkgs (some resolved) none = []
    ∧ buildPkgs (some resolved) none ≠ [resolved] := by
  refine ⟨?_, rfl, by simp [buildPkgs]⟩
  simp [buildVerbInvocations, buildPkgs, applySkipTests, applyBuildTypeOverride]

/-- C3: the build-mode token is the last token of a Configured builder's
sequence, and in particular comes after all extra cmake arguments. -/
theorem c3_build_mode_token_last (args : List String) (config : BuildConfiguration) :
    (BuildVerb.configure args config).getLast? = some config.build_type.apply
    ∧ ∃ l, BuildVerb.configure args config = l ++ config.cmake_args ++ [config.build_type.apply] := by
  constructor
  · show (_ ++ [config.build_type.apply]).getLast? = some config.build_type.apply
    exact List.getLast?_concat _
  · exact ⟨args ++ parallelArgs config.parallel_jobs ++ config.event_handlers.apply
      ++ mixinArgs config.mixins
      ++ ["--cmake-args", cmake_arg "BUILD_TESTING" (if config.build_tests then "ON" else "OFF")],
      by simp [BuildVerb.configure, List.append_assoc]⟩

/-- C9: every test-verb orchestrator sequence contains `--event-handlers`
twice in direct succession — once from `ColconInvocation::test` itself and
once from `EventHandlers::apply` — followed by the four handler tokens. -/
theorem c9_event_handlers_token_duplicated (args : List String) (config : TestConfiguration) :
    ∃ tail, ColconInvocation.test args config =
      args ++ ["test", "--event-handlers", "--event-handlers",
        handler_str "summary" config.event_handlers.summary,
        handler_str "console_start_end" config.event_handlers.console_start_end,
        handler_str "console_cohesion" config.event_handlers.console_cohesion,
        handler_str "desktop_notification" config.event_handlers.desktop_notification] ++ tail := by
  refine ⟨["--ctest-args", "--output-on-failure"]
    ++ (match config.test with
        | some t => ["-R", "^" ++ t ++ "$"]
        | none => [])
    ++ ["--packages-select", config.package], ?_⟩
  simp [ColconInvocation.test, EventHandlers.apply, List.append_assoc]

/-- C6: the `--build-type` override on the build verb changes only the
package profile's build mode — the upstream profile is untouched in every
field and every other package-profile field is preserved — and the
dependency-build invocation (which the source runs before applying the
override) is identical with and without the override. -/
theorem c6_build_type_override_frame (config : Config) (t : BuildType)
    (resolved : Option String) (f : BuildFlags) (h : f.skip_dependencies = false) :
    (applyBuildTypeOverride config (some t)).upstream = config.upstream
    ∧ (applyBuildTypeOverride config (some t)).package =
        { config.package with build_type := t }
    ∧ (buildVerbInvocations resolved config { f with build_type := some t }).head? =
        (buildVerbInvocations resolved config { f with build_type := none }).head? := by
  refine ⟨rfl, rfl, ?_⟩
  simp [buildVerbInvocations, h]

theorem c6_build_type_override_frame_witness :
    c6WitnessFlags.skip_dependencies = false
    ∧ ((applyBuildTypeOverride c6WitnessConfig (some .Release)).upstream = c6WitnessConfig.upstream
      ∧ (applyBuildTypeOverride c6WitnessConfig (some .Release)).package =
          { c6WitnessConfig.package with build_type := .Release }
      ∧ (buildVerbInvocations none c6WitnessConfig
            { c6WitnessFlags with build_type := some .Release }).head? =
          (buildVerbInvocations none c6WitnessConfig
            { c6WitnessFlags with build_type := none }).head?) :=
  ⟨rfl, c6_build_type_override_frame c6WitnessConfig .Release none c6WitnessFlags rfl⟩

/-- C8: the clean verb with an empty package name prints the error but does
not abort; `clean_package` still runs, and since joining an empty component
leaves a path unchanged, the removal targets are the workspace's whole
`build` and `install` directories, both removed when they exist. -/
theorem c8_clean_empty_package_removes_whole_dirs (fsExists : List String → Bool)
    (ws : List String) (hb : fsExists (ws ++ ["build"]) = true)
    (hi : fsExists (ws ++ ["install"]) = true) :
    cleanVerb fsExists ws "" =
      { errorPrinted := true, aborted := false,
        result := { removed := [ws ++ ["build"], ws ++ ["install"]], nothingMsg := false } } := by
  have h1 : pathJoin (pathJoin ws "build") "" = ws ++ ["build"] := by simp [pathJoin]
  have h2 : pathJoin (pathJoin ws "install") "" = ws ++ ["install"] := by simp [pathJoin]
  simp [cleanVerb, clean_package, h1, h2, hb, hi]
  decide

theorem c8_clean_empty_package_witness :
    c8WitnessFs (["ws"] ++ ["build"]) = true
    ∧ c8WitnessFs (["ws"] ++ ["install"]) = true
    ∧ cleanVerb c8WitnessFs ["ws"] "" =
        { errorPrinted := true, aborted := false,
          result := { removed := [["ws"] ++ ["build"], ["ws"] ++ ["install"]],
                      nothingMsg := false } } :=
  ⟨by decide, by decide,
    c8_clean_empty_package_removes_whole_dirs c8WitnessFs ["ws"] (by decide) (by decide)⟩

/-- C4: the test verb with `--direct`, `--test <name>` and `--skip-rebuild`
(and without `--rebuild-dependencies`) launches exactly one child process —
the test runner on the named test — skipping the dependency-build,
package-build, orchestrator test-run and result-report phases, and returns
right after that child exits (propagating its status via `exit_on_error`). -/
theorem c4_direct_test_launches_only_ctest (ws package tn : String) (config : Config)
    (oracle : Phase → Option Int) :
    (testVerbExec ⟨some tn, true, true, false⟩ oracle).trace = [Phase.directTestRun]
    ∧ testPhaseInvocation ws config package (some tn) Phase.directTestRun =
        ⟨Tool.ctest, run_single_ctest_args ws package tn⟩
    ∧ (testVerbExec ⟨some tn, true, true, false⟩ oracle).exitCode =
        exit_on_error (oracle Phase.directTestRun) := by
  have hplan : testPlan ⟨some tn, true, true, false⟩ = [Phase.directTestRun] := rfl
  refine ⟨?_, rfl, ?_⟩ <;>
    (unfold testVerbExec
     rw [hplan]
     cases h : exit_on_error (oracle Phase.directTestRun) <;> simp [execPhases, h])

theorem exit_on_error_nonzero (c : Int) (hc : c ≠ 0) :
    exit_on_error (some c) = some c := by
  simp [exit_on_error, hc]

theorem exit_on_error_eq_none (s : Option Int) (h : exit_on_error s = none) :
    s = some 0 := by
  match s with
  | none => simp [exit_on_error] at h
  | some c =>
    simp only [exit_on_error] at h
    by_cases hc : c = 0
    · rw [hc]
    · simp [hc] at h

theorem execPhases_stops_at_failure (oracle : Phase → Option Int) (plan : List Phase)
    (p : Phase) (c : Int) (hmem : p ∈ (execPhases oracle plan).trace)
    (hst : oracle p = some c) (hc : c ≠ 0) :
    (execPhases oracle plan).trace.getLast? = some p
    ∧ (execPhases oracle plan).exitCode = some c := by
  induction plan with
  | nil => simp [execPhases] at hmem
  | cons q rest ih =>
    by_cases hq : exit_on_error (oracle q) = none
    · have hq0 : oracle q = some 0 := exit_on_error_eq_none _ hq
      have hrun : execPhases oracle (q :: rest) =
          ⟨q :: (execPhases oracle rest).trace, (execPhases oracle rest).exitCode⟩ := by
        simp [execPhases, hq]
      rw [hrun] at hmem ⊢
      have hpq : p ≠ q := by
        intro he
        rw [he, hq0] at hst
        exact hc (Option.some.injEq .. ▸ hst.symm)
      have hmem' : p ∈ (execPhases oracle rest).trace := by
        rcases List.mem_cons.mp hmem with h | h
        · exact absurd h hpq
        · exact h
      obtain ⟨hlast, hcode⟩ := ih hmem'
      refine ⟨?_, hcode⟩
      match htr : (execPhases oracle rest).trace with
      | [] => rw [htr] at hlast; simp at hlast
      | x :: xs =>
        rw [htr] at hlast
        rw [List.getLast?_cons_cons]
        exact hlast
    · obtain ⟨c', hc'⟩ := Option.ne_none_iff_exists'.mp hq
      have hrun : execPhases oracle (q :: rest) = ⟨[q], some c'⟩ := by
        simp [execPhases, hc']
      rw [hrun] at hmem ⊢
      have hpq : p = q := by simpa using hmem
      subst hpq
      rw [hst] at hc'
      rw [exit_on_error_nonzero c hc] at hc'
      simp only [Option.some.injEq] at hc'
      subst hc'
      exact ⟨rfl, rfl⟩

/-- C2: in the test verb's orchestration, any phase whose child process
exits with a non-zero code is the last phase executed (no later phase runs)
and the tool's own exit code is exactly that child's code. -/
theorem c2_nonzero_child_exit_propagates (f : TestFlags) (oracle : Phase → Option Int)
    (p : Phase) (c : Int) (hmem : p ∈ (testVerbExec f oracle).trace)
    (hst : oracle p = some c) (hc : c ≠ 0) :
    (testVerbExec f oracle).trace.getLast? = some p
    ∧ (testVerbExec f oracle).exitCode = some c :=
  execPhases_stops_at_failure oracle (testPlan f) p c hmem hst hc

theorem c2_nonzero_child_exit_propagates_witness :
    Phase.testRun ∈ (testVerbExec c2WitnessFlags c2WitnessOracle).trace
    ∧ c2WitnessOracle Phase.testRun = some 3
    ∧ (3 : Int) ≠ 0
    ∧ ((testVerbExec c2WitnessFlags c2WitnessOracle).trace.getLast? = some Phase.testRun
      ∧ (testVerbExec c2WitnessFlags c2WitnessOracle).exitCode = some 3) :=
  ⟨by decide, by decide, by decide,
    c2_nonzero_child_exit_propagates c2WitnessFlags c2WitnessOracle Phase.testRun 3
      (by decide) (by decide) (by decide)⟩

/-! ### The `--parallel-workers` count token is a decimal numeral, never a flag -/

theorem digitChar_lt_ten_ne_dash (m : Nat) (h : m < 10) : Nat.digitChar m ≠ '-' := by
  interval_cases m <;> decide

theorem toDigitsCore_chars (b fuel : Nat) (hb : 0 < b) :
    ∀ (n : Nat) (acc : List Char) (ch : Char),
      ch ∈ Nat.toDigitsCore b fuel n acc → ch ∈ acc ∨ ∃ m, m < b ∧ ch = Nat.digitChar m := by
  induction fuel with
  | zero => exact fun n acc ch h => Or.inl h
  | succ fuel ih =>
    intro n acc ch h
    simp only [Nat.toDigitsCore] at h
    by_cases hz : n / b = 0
    · rw [if_pos hz] at h
      rcases List.mem_cons.mp h with he | ha
      · exact Or.inr ⟨n % b, Nat.mod_lt _ hb, he⟩
      · exact Or.inl ha
    · rw [if_neg hz] at h
      rcases ih (n / b) (Nat.digitChar (n % b) :: acc) ch h with ha | hd
      · rcases List.mem_cons.mp ha with he | ha'
        · exact Or.inr ⟨n % b, Nat.mod_lt _ hb, he⟩
        · exact Or.inl ha'
      · exact Or.inr hd

theorem repr_char_is_digitChar (n : Nat) (ch : Char) (h : ch ∈ (Nat.repr n).data) :
    ∃ m, m < 10 ∧ ch = Nat.digitChar m := by
  have h' : ch ∈ Nat.toDigitsCore 10 (n + 1) n [] := h
  rcases toDigitsCore_chars 10 (n + 1) (by omega) n [] ch h' with ha | hd
  · simp at ha
  · exact hd

theorem natRepr_ne_mixin (n : Nat) : Nat.repr n ≠ "--mixin" := by
  intro h
  have hd : '-' ∈ (Nat.repr n).data := by rw [h]; decide
  obtain ⟨m, hm, he⟩ := repr_char_is_digitChar n '-' hd
  exact digitChar_lt_ten_ne_dash m hm he.symm

/-! ### C5 support: no other builder segment produces the mixin flag token -/

theorem mixin_notin_build_stage (log : Bool) (base : BuildOutput) :
    "--mixin" ∉ ColconInvocation.build (ColconInvocation.new log) base := by
  obtain ⟨s, m⟩ := base
  cases log <;> cases s <;> cases m <;> decide

theorem mixin_notin_parallelArgs (pj : Option Nat) : "--mixin" ∉ parallelArgs pj := by
  cases pj with
  | none => simp [parallelArgs]
  | some n =>
    intro h
    simp only [parallelArgs, List.mem_cons, List.not_mem_nil, or_false] at h
    rcases h with h | h | h | h
    · exact (by decide : ¬("--mixin" = "--executor")) h
    · exact (by decide : ¬("--mixin" = "parallel")) h
    · exact (by decide : ¬("--mixin" = "--parallel-workers")) h
    · exact natRepr_ne_mixin n h.symm

theorem mixin_notin_handlers (e : EventHandlers) : "--mixin" ∉ e.apply := by
  obtain ⟨a, b, c, d⟩ := e
  cases a <;> cases b <;> cases c <;> cases d <;> decide

theorem mixin_ne_buildTestingArg (b : Bool) :
    "--mixin" ≠ cmake_arg "BUILD_TESTING" (if b then "ON" else "OFF") := by
  cases b <;> decide

theorem mixin_ne_buildTypeArg (t : BuildType) : "--mixin" ≠ t.apply := by
  cases t <;> decide

theorem mixin_notin_whatArgs (what : What) (hwp : "--mixin" ∉ what.pkgs) :
    "--mixin" ∉ what.args := by
  cases what with
  | DependenciesFor ps =>
    simp only [What.pkgs] at hwp
    intro h
    simp only [What.args, List.cons_append, List.mem_cons, List.mem_append] at h
    rcases h with h | h | h | h
    · exact (by decide : ¬("--mixin" = "--packages-up-to")) h
    · exact hwp h
    · exact (by decide : ¬("--mixin" = "--packages-skip")) h
    · exact hwp h
  | ThesePackages ps =>
    simp only [What.pkgs] at hwp
    intro h
    rcases List.mem_cons.mp h with h | h
    · exact (by decide : ¬("--mixin" = "--packages-select")) h
    · exact hwp h

/-- C5 (amended): for profiles whose extra cmake arguments, mixin names and
target package names do not themselves contain the literal token
`--mixin`: an empty mixin list yields a finalized sequence without the
mixin flag token, and a non-empty one yields exactly one occurrence,
immediately followed by all mixin names in their original order. -/
theorem c5_amended_mixin_flag_occurrence (log : Bool) (base : BuildOutput)
    (config : BuildConfiguration) (what : What)
    (hca : "--mixin" ∉ config.cmake_args) (hmx : "--mixin" ∉ config.mixins)
    (hwp : "--mixin" ∉ what.pkgs) :
    (config.mixins = [] → "--mixin" ∉ buildPipelineArgs log base config what)
    ∧ (config.mixins ≠ [] →
        (buildPipelineArgs log base config what).count "--mixin" = 1
        ∧ ∃ l1 l2,
          buildPipelineArgs log base config what = l1 ++ "--mixin" :: (config.mixins ++ l2)
          ∧ "--mixin" ∉ l1 ∧ "--mixin" ∉ l2) := by
  have hpre : "--mixin" ∉ ColconInvocation.build (ColconInvocation.new log) base
      ++ parallelArgs config.parallel_jobs ++ config.event_handlers.apply := by
    intro h
    rcases List.mem_append.mp h with h | h
    · rcases List.mem_append.mp h with h | h
      · exact mixin_notin_build_stage log base h
      · exact mixin_notin_parallelArgs _ h
    · exact mixin_notin_handlers _ h
  have hpost : "--mixin" ∉
      ["--cmake-args", cmake_arg "BUILD_TESTING" (if config.build_tests then "ON" else "OFF")]
      ++ config.cmake_args ++ [config.build_type.apply] ++ what.args := by
    intro h
    rcases List.mem_append.mp h with h | h
    · rcases List.mem_append.mp h with h | h
      · rcases List.mem_append.mp h with h | h
        · rcases List.mem_cons.mp h with h | h
          · exact (by decide : ¬("--mixin" = "--cmake-args")) h
          · exact mixin_ne_buildTestingArg config.build_tests (List.mem_singleton.mp h)
        · exact hca h
      · exact mixin_ne_buildTypeArg config.build_type (List.mem_singleton.mp h)
    · exact mixin_notin_whatArgs what hwp h
  have hdecomp : buildPipelineArgs log base config what =
      (ColconInvocation.build (ColconInvocation.new log) base
        ++ parallelArgs config.parallel_jobs ++ config.event_handlers.apply)
      ++ mixinArgs config.mixins
      ++ (["--cmake-args", cmake_arg "BUILD_TESTING" (if config.build_tests then "ON" else "OFF")]
          ++ config.cmake_args ++ [config.build_type.apply] ++ what.args) := by
    simp [buildPipelineArgs, BuildVerb.configure, List.append_assoc]
  constructor
  · intro hm
    have hempty : mixinArgs config.mixins = [] := by rw [hm]; rfl
    rw [hdecomp, hempty, List.append_nil]
    intro h
    rcases List.mem_append.mp h with h | h
    · exact hpre h
    · exact hpost h
  · intro hm
    have hcons : mixinArgs config.mixins = "--mixin" :: config.mixins := by
      cases h' : config.mixins with
      | nil => exact absurd h' hm
      | cons a as => rfl
    have heq : buildPipelineArgs log base config what =
        (ColconInvocation.build (ColconInvocation.new log) base
          ++ parallelArgs config.parallel_jobs ++ config.event_handlers.apply)
        ++ "--mixin" :: (config.mixins
          ++ (["--cmake-args",
                cmake_arg "BUILD_TESTING" (if config.build_tests then "ON" else "OFF")]
              ++ config.cmake_args ++ [config.build_type.apply] ++ what.args)) := by
      rw [hdecomp, hcons]
      simp [List.append_assoc]
    refine ⟨?_, _, _, heq, hpre, hpost⟩
    rw [heq]
    have z1 := List.count_eq_zero_of_not_mem (mixin_notin_build_stage log base)
    have z2 := List.count_eq_zero_of_not_mem (mixin_notin_parallelArgs config.parallel_jobs)
    have z3 := List.count_eq_zero_of_not_mem (mixin_notin_handlers config.event_handlers)
    have z4 := List.count_eq_zero_of_not_mem hca
    have z5 := List.count_eq_zero_of_not_mem (mixin_notin_whatArgs what hwp)
    have z6 := List.count_eq_zero_of_not_mem hmx
    have i1 : (if config.build_type.apply = "--mixin" then 1 else 0) = 0 :=
      if_neg (Ne.symm (mixin_ne_buildTypeArg config.build_type))
    have i2 : (if cmake_arg "BUILD_TESTING" (if config.build_tests then "ON" else "OFF")
        = "--mixin" then 1 else 0) = 0 :=
      if_neg (Ne.symm (mixin_ne_buildTestingArg config.build_tests))
    simp [List.count_append, List.count_cons, z1, z2, z3, z4, z5, z6, i1, i2]

/-- C5 counterexample to the claim as stated: a profile with an empty mixin
list whose extra cmake arguments contain the literal `--mixin` produces a
finalized sequence that does contain the mixin flag token. -/
theorem c5_counterexample_mixin_token_from_cmake_args :
    c5CexConfig.mixins = []
    ∧ "--mixin" ∈ buildPipelineArgs false ⟨false, false⟩ c5CexConfig (.ThesePackages ["pkg"]) := by
  constructor
  · rfl
  · decide

theorem c5_amended_mixin_flag_occurrence_witness :
    ("--mixin" ∉ c5WitnessConfig.cmake_args)
    ∧ ("--mixin" ∉ c5WitnessConfig.mixins)
    ∧ ("--mixin" ∉ (What.ThesePackages ["pkg"]).pkgs)
    ∧ ((c5WitnessConfig.mixins = [] →
          "--mixin" ∉ buildPipelineArgs true ⟨false, false⟩ c5WitnessConfig (.ThesePackages ["pkg"]))
      ∧ (c5WitnessConfig.mixins ≠ [] →
          (buildPipelineArgs true ⟨false, false⟩ c5WitnessConfig
            (.ThesePackages ["pkg"])).count "--mixin" = 1
          ∧ ∃ l1 l2,
            buildPipelineArgs true ⟨false, false⟩ c5WitnessConfig (.ThesePackages ["pkg"])
              = l1 ++ "--mixin" :: (c5WitnessConfig.mixins ++ l2)
            ∧ "--mixin" ∉ l1 ∧ "--mixin" ∉ l2)) :=
  ⟨by decide, by decide, by decide,
    c5_amended_mixin_flag_occurrence true ⟨false, false⟩ c5WitnessConfig
      (.ThesePackages ["pkg"]) (by decide) (by decide) (by decide)⟩

end Colb
